import Mathlib

/-!
Shallow embedding of the JobSwiper application pipeline: the `/api/apply/async`
route (synchronous and background phases), the swipe / resume / compatibility
storage operations, the HH token manager and the negotiation submission client.
Definitions are translated from the TypeScript source; theorems settle the
frozen claims about them.
-/

set_option maxRecDepth 4000

namespace JobSwiper

/-! ## JavaScript-semantics helpers -/

/-- JS truthiness for an optional string: `undefined`, `null` and `""` are
falsy.  `jsStr? x = none` exactly when `x` is falsy in the source. -/
def jsStr? (x : Option String) : Option String :=
  match x with
  | none => none
  | some s => if s = "" then none else some s

/-- JS `a || b` on strings where `a` is an optional (possibly empty) string. -/
def jsOrS (a : Option String) (b : String) : String :=
  match jsStr? a with
  | some s => s
  | none => b

/-- JS `a || b` where both sides are optional strings (used for chained
`errorData.description || errorData.error || default`). -/
def jsOrO (a b : Option String) : Option String :=
  match jsStr? a with
  | some s => some s
  | none => b

/-- `parseInt(s)` restricted to the shapes that occur here (decimal digit
prefixes of vacancy-id strings); returns `none` for `NaN`. -/
def parseIntJS (s : String) : Option Int :=
  let ds := s.toList.takeWhile Char.isDigit
  if ds.isEmpty then none
  else some (ds.foldl (fun n c => n * 10 + (Int.ofNat (c.toNat - 48))) 0)

/-- `parseInt(s) || 0`: a parse failure, and a parsed `0`, both give `0`. -/
def parseIntOr0 (s : String) : Int :=
  match parseIntJS s with
  | some n => n
  | none => 0

/-- `parseInt(s) || null`: `NaN` and `0` both give `null`. -/
def parseIntOrNull (s : String) : Option Int :=
  match parseIntJS s with
  | some n => if n = 0 then none else some n
  | none => none

/-! ## openrouter.ts: sanitize, fallback letter, cover-letter generation -/

/-- The characters removed by `text.replace(/[*#_\-]/g, " ")`. -/
def isMdChar (c : Char) : Bool :=
  c = '*' || c = '#' || c = '_' || c = '-'

/-- `replace(/\s+/g, " ")`: collapse every whitespace run to one space.  The
flag records whether the previous kept character was part of a run. -/
def collapseWsAux : Bool → List Char → List Char
  | _, [] => []
  | prevWs, c :: rest =>
    if c.isWhitespace then
      if prevWs then collapseWsAux true rest
      else ' ' :: collapseWsAux true rest
    else c :: collapseWsAux false rest

/-- JS `String.prototype.trim`, written structurally so it evaluates inside
the kernel (core `String.trim` is defined by well-founded recursion). -/
def jsTrim (s : String) : String :=
  String.mk
    (((s.toList.dropWhile Char.isWhitespace).reverse.dropWhile
      Char.isWhitespace).reverse)

/-- `sanitize` from `openrouter.ts`: strip markdown punctuation, collapse
whitespace, trim. -/
def sanitize (s : String) : String :=
  jsTrim (String.mk (collapseWsAux false
    (s.toList.map (fun c => if isMdChar c then ' ' else c))))

/-- Vacancy object as built by the background task (schema `Job` shape). -/
structure Job where
  id : Int
  title : String
  company : String
  salary : String
  description : String
  tags : List String
deriving DecidableEq, Repr

/-- `fallbackLetter` from `openrouter.ts` (the vacancy argument is unused in
the source as well). -/
def fallbackLetter (_vacancy : Job) : String :=
  "Имею релевантный опыт работы и занимался развитием маркетинговых и продуктовых направлений. Работал с аналитикой, гипотезами, процессами и улучшением метрик.\n\nМой опыт и навыки позволяют закрывать задачи по развитию продукта и маркетинговых направлений."

/-- Outcome of the OpenRouter chat-completion call made by
`generateCoverLetter`: the fetch threw, the response was non-2xx, the body
carried no `choices[0].message.content`, or it carried the given text. -/
inductive LLMOutcome
  | fetchFailed
  | httpError
  | noText
  | text (t : String)
deriving DecidableEq, Repr

/-- `generateCoverLetter` from `openrouter.ts`, with the network call
abstracted to an `LLMOutcome`.  Every failure path returns the fallback
letter; a successful text is trimmed then sanitized.  The resume and vacancy
feed only the prompt, so they do not determine the output text. -/
def generateCoverLetter (apiKey : Option String) (llm : LLMOutcome)
    (_resume : String) (vacancy : Job) : String :=
  match jsStr? apiKey with
  | none => fallbackLetter vacancy
  | some _ =>
    match llm with
    | .fetchFailed => fallbackLetter vacancy
    | .httpError => fallbackLetter vacancy
    | .noText => fallbackLetter vacancy
    | .text t => if t = "" then fallbackLetter vacancy else sanitize (jsTrim t)

/-! ## openrouter.ts: compatibility scoring -/

/-- JS numbers as they occur in the scoring path: an integer or `NaN`
(`Math.round(parsed.score)` is always an integer or `NaN`). -/
inductive JSNum
  | nan
  | num (n : Int)
deriving DecidableEq, Repr

/-- JS `x >= m` (false when `x` is `NaN`). -/
def JSNum.ge (x : JSNum) (m : Int) : Bool :=
  match x with
  | .nan => false
  | .num n => m ≤ n

/-- `Math.max(0, Math.min(100, x))` with JS `NaN` propagation. -/
def jsClamp0To100 (x : JSNum) : JSNum :=
  match x with
  | .nan => .nan
  | .num n => .num (max 0 (min 100 n))

/-- `scoreToColor` from `openrouter.ts`. -/
def scoreToColor (score : JSNum) : String :=
  if score.ge 75 then "green"
  else if score.ge 40 then "yellow"
  else "red"

/-- Result shape of `calculateCompatibility`. -/
structure CompatibilityResult where
  vacancyId : String
  score : JSNum
  color : String
  explanation : String
deriving DecidableEq, Repr

/-- Outcome of the OpenRouter call made by `calculateCompatibility`:
the fetch threw; non-2xx; a `{...}` block parsed as JSON whose
`Math.round(parsed.score)` is the given `JSNum` (with `parsed.explanation`,
empty when falsy); no parseable JSON but the score regexes matched the given
digits (with an optional explanation match); or nothing extractable. -/
inductive CompatOutcome
  | fetchFailed
  | httpError
  | json (roundedScore : JSNum) (explanation : String)
  | regexScore (digits : Nat) (explanation : Option String)
  | noScore
deriving DecidableEq, Repr

/-- `calculateCompatibility` from `openrouter.ts`, network call abstracted to
a `CompatOutcome`.  Mirrors the guard (`!apiKey || !resume ||
resume.trim().length < 50`), the JSON path with clamping, the regex fallback,
and the neutral defaults of every error branch. -/
def calculateCompatibility (apiKey : Option String) (resume : String)
    (vacancyId : String) (outcome : CompatOutcome) : CompatibilityResult :=
  if jsStr? apiKey = none || resume = "" || (jsTrim resume).length < 50 then
    { vacancyId, score := .num 50, color := "yellow",
      explanation := "Недостаточно данных для анализа совместимости." }
  else
    match outcome with
    | .fetchFailed =>
      { vacancyId, score := .num 50, color := "yellow",
        explanation := "Ошибка при расчёте совместимости." }
    | .httpError =>
      { vacancyId, score := .num 50, color := "yellow",
        explanation := "Ошибка анализа." }
    | .json roundedScore explanation =>
      let score := jsClamp0To100 roundedScore
      { vacancyId, score, color := scoreToColor score,
        explanation := sanitize (jsOrS (some explanation) "Анализ выполнен.") }
    | .regexScore digits explanation =>
      let score := jsClamp0To100 (.num (Int.ofNat digits))
      { vacancyId, score, color := scoreToColor score,
        explanation :=
          match explanation with
          | some e => sanitize e
          | none => "Анализ на основе навыков и опыта." }
    | .noScore =>
      { vacancyId, score := .num 50, color := "yellow",
        explanation := "Не удалось извлечь оценку совместимости." }

/-- `true` exactly when a returned score is an integer in `[0, 100]` (in
particular `false` for `NaN`). -/
def scoreInRange (x : JSNum) : Bool :=
  match x with
  | .nan => false
  | .num n => 0 ≤ n && n ≤ 100

/-! ## Data model (shared/schema.ts rows) -/

/-- A row of the `users` table (only the columns the token manager reads). -/
structure UserRow where
  id : String
  hhAccessToken : Option String
  hhRefreshToken : Option String
  /-- `hh_token_expires_at` as milliseconds since epoch; `none` is NULL. -/
  hhTokenExpiresAt : Option Int
deriving DecidableEq, Repr

/-- A row of the `resumes` table. -/
structure ResumeRow where
  id : Nat
  userId : Option String
  hhResumeId : Option String
  title : Option String
  content : String
  selected : Bool
deriving DecidableEq, Repr

/-- A row of the `swipes` table. -/
structure SwipeRow where
  id : Nat
  userId : String
  vacancyId : String
  direction : String
deriving DecidableEq, Repr

/-- A row of the `applications` table. -/
structure ApplicationRow where
  id : Nat
  userId : Option String
  vacancyId : Option String
  jobId : Option Int
  jobTitle : String
  company : String
  resumeId : Option Nat
  coverLetter : Option String
  hhNegotiationId : Option String
  status : String
  errorReason : Option String
deriving DecidableEq, Repr

/-- A row of the `ai_compatibility` cache table (key columns only). -/
structure CompatRow where
  userId : String
  vacancyId : String
deriving DecidableEq, Repr

/-- The relational store, with the serial-id counters of the tables the
claims write to. -/
structure DB where
  resumes : List ResumeRow
  swipes : List SwipeRow
  applications : List ApplicationRow
  compat : List CompatRow
  nextResumeId : Nat
  nextSwipeId : Nat
  nextAppId : Nat
deriving DecidableEq, Repr

/-- `db.select().from(resumes).where(userId = uid AND selected)` destructured
as `const [selectedResume] = ...`: the first matching row, if any. -/
def selectedResumeFor (db : DB) (uid : String) : Option ResumeRow :=
  (db.resumes.filter (fun r => r.userId = some uid && r.selected)).head?

/-- `DbStorage.getSwipedVacancyIds`. -/
def getSwipedVacancyIds (db : DB) (uid : String) : List String :=
  (db.swipes.filter (fun s => s.userId = uid)).map (fun s => s.vacancyId)

/-- `DbStorage.hasSwipedVacancy`. -/
def hasSwipedVacancy (db : DB) (uid vacancyId : String) : Bool :=
  db.swipes.any (fun s => s.userId = uid && s.vacancyId = vacancyId)

/-- `DbStorage.createSwipe`. -/
def createSwipe (db : DB) (uid vacancyId direction : String) : DB × SwipeRow :=
  let row : SwipeRow :=
    { id := db.nextSwipeId, userId := uid, vacancyId, direction }
  ({ db with swipes := db.swipes ++ [row], nextSwipeId := db.nextSwipeId + 1 },
   row)

/-- `DbStorage.deleteCompatibility`. -/
def deleteCompatibility (db : DB) (uid vacancyId : String) : DB :=
  { db with compat :=
      db.compat.filter (fun c => !(c.userId = uid && c.vacancyId = vacancyId)) }

/-- `db.update(applications).set(...).where(id = appId)`. -/
def updateApps (db : DB) (appId : Nat)
    (f : ApplicationRow → ApplicationRow) : DB :=
  { db with applications :=
      db.applications.map (fun a => if a.id = appId then f a else a) }

/-! ## hhAuth.ts: token manager and negotiation submission -/

/-- Token pair returned by the HH OAuth endpoint. -/
structure TokenResponse where
  access_token : String
  refresh_token : String
  expires_in : Int
deriving DecidableEq, Repr

/-- `getValidAccessToken` from `hhAuth.ts`: `none` when the user row is
missing, lacks either stored token, or the stored token is expired and the
refresh call fails (`refreshHHToken` throwing is the `.error` case).  The
persistence of a successful refresh is not modelled since no claim reads the
updated row. -/
def getValidAccessToken (user : Option UserRow) (now : Int)
    (refresh : Except Unit TokenResponse) : Option String :=
  match user with
  | none => none
  | some u =>
    match jsStr? u.hhAccessToken, jsStr? u.hhRefreshToken with
    | some tok, some _ =>
      match u.hhTokenExpiresAt with
      | some expiresAt =>
        if now < expiresAt then some tok
        else
          match refresh with
          | .ok t => some t.access_token
          | .error _ => none
      | none =>
        match refresh with
        | .ok t => some t.access_token
        | .error _ => none
    | _, _ => none

/-- A field-level sub-error of the negotiations endpoint. -/
structure ErrorsItem where
  type : String
  value : String
deriving DecidableEq, Repr

/-- The HTTP response of `POST /negotiations` as `applyToVacancy` reads it:
status, `Location` header, and the JSON body fields it inspects
(`bodyParsed = false` models `response.json()` throwing, caught into `{}`). -/
structure HttpResp where
  status : Nat
  location : Option String
  bodyParsed : Bool
  bodyDescription : Option String
  bodyError : Option String
  bodyErrors : Option (List ErrorsItem)
deriving DecidableEq, Repr

/-- `response.ok`: status in [200, 300). -/
def respOk (r : HttpResp) : Bool :=
  200 ≤ r.status && r.status < 300

/-- Result shape of `applyToVacancy` (`NegotiationResponse`). -/
structure NegotiationResponse where
  id : Option String := none
  error : Option String := none
  errors : Option (List ErrorsItem) := none
deriving DecidableEq, Repr

/-- `applyToVacancy` from `hhAuth.ts`, the fetch abstracted to its response:
201 with a truthy `Location` yields the id popped off the split header; a
non-ok response yields `description || error || "HTTP <status>"`; any other
ok response yields the empty record. -/
def applyToVacancy (resp : HttpResp) : NegotiationResponse :=
  match jsStr? resp.location with
  | some loc =>
    if resp.status = 201 then
      { id := (loc.splitOn "/").getLast? }
    else if respOk resp then {}
    else
      { error := some (jsOrS
          (if resp.bodyParsed then resp.bodyDescription else none)
          (jsOrS (if resp.bodyParsed then resp.bodyError else none)
            ("HTTP " ++ toString resp.status))),
        errors := if resp.bodyParsed then resp.bodyErrors else none }
  | none =>
    if respOk resp then {}
    else
      { error := some (jsOrS
          (if resp.bodyParsed then resp.bodyDescription else none)
          (jsOrS (if resp.bodyParsed then resp.bodyError else none)
            ("HTTP " ++ toString resp.status))),
        errors := if resp.bodyParsed then resp.bodyErrors else none }

/-! ## routes.ts: POST /api/apply/async — synchronous phase -/

/-- `vacancyData` as read from the request body (every field optional, since
the whole object may be absent). -/
structure VacancySnapshot where
  title : Option String := none
  company : Option String := none
  salary : Option String := none
  description : Option String := none
  tags : Option (List String) := none
deriving DecidableEq, Repr

/-- Request body of `POST /api/apply/async`.  Optional strings model absent
fields; JS falsiness of `""` is applied where the handler tests truthiness. -/
structure ApplyAsyncRequest where
  userId : Option String := none
  vacancyId : Option String := none
  vacancyData : Option VacancySnapshot := none
  resumeText : Option String := none
  isDemo : Bool := false
deriving DecidableEq, Repr

/-- Body of the immediate `res.json({status: "queued", ...})` reply. -/
structure QueuedResponse where
  status : String
  applicationId : Nat
deriving DecidableEq, Repr

/-- Synchronous phase of `POST /api/apply/async`: reject with 400 when
`vacancyId` is falsy, otherwise insert the pending application row, delete
the cached compatibility when a user is present, and answer `queued`. -/
def applyAsyncSync (db : DB) (req : ApplyAsyncRequest) :
    Except Nat (DB × QueuedResponse) :=
  match jsStr? req.vacancyId with
  | none => .error 400
  | some vid =>
    let newApp : ApplicationRow :=
      { id := db.nextAppId,
        userId := jsStr? req.userId,
        vacancyId := some vid,
        jobId := parseIntOrNull vid,
        jobTitle := jsOrS (req.vacancyData.bind (·.title)) "Вакансия",
        company := jsOrS (req.vacancyData.bind (·.company)) "Компания",
        resumeId := none,
        coverLetter := none,
        hhNegotiationId := none,
        status := "pending",
        errorReason := none }
    let db1 :=
      { db with applications := db.applications ++ [newApp],
                nextAppId := db.nextAppId + 1 }
    let db2 :=
      match jsStr? req.userId with
      | some uid => deleteCompatibility db1 uid vid
      | none => db1
    .ok (db2, { status := "queued", applicationId := newApp.id })

/-! ## routes.ts: POST /api/apply/async — background phase -/

/-- Resume text resolved at the start of the background task: the content of
the user's first selected resume row, empty when no user is present or no
resume is selected (the caller-supplied `resumeText` is only printed to the
console in the source and never reaches this value). -/
def resolveResumeText (db : DB) (userId : Option String) : String :=
  match userId with
  | none => ""
  | some uid =>
    match selectedResumeFor db uid with
    | some r => r.content
    | none => ""

/-- The vacancy object the background task builds from the request body. -/
def mkVacancy (vacancyId : String) (vd : Option VacancySnapshot) : Job :=
  { id := parseIntOr0 vacancyId,
    title := jsOrS (vd.bind (·.title)) "",
    company := jsOrS (vd.bind (·.company)) "",
    salary := jsOrS (vd.bind (·.salary)) "",
    description := jsOrS (vd.bind (·.description)) "",
    tags := (vd.bind (·.tags)).getD [] }

/-- External calls issued by the background task, recorded with their
arguments. -/
inductive ExtCall
  | genCover (resumeText : String)
  | applyCall (token vacancyId resumeId message : String)
deriving DecidableEq, Repr

/-- `true` only for a negotiation-submission call. -/
def ExtCall.isApply : ExtCall → Bool
  | .applyCall _ _ _ _ => true
  | _ => false

/-- External-world outcomes the background task depends on: the OpenRouter
key and response, the token manager's result, and the negotiations response. -/
structure BgEnv where
  genApiKey : Option String
  genLlm : LLMOutcome
  token : Option String
  applyResp : HttpResp
deriving Repr

/-- Background phase of `POST /api/apply/async` for the pending application
`appId`, translated branch by branch from the `setImmediate` body.  `userId`
is the truthiness-normalized body field (`none` for absent or `""`).  Returns
the updated store and the list of external calls made.  The source's catch
that stores `"Ошибка генерации сопроводительного письма."` is unreachable
here because `generateCoverLetter` never throws, matching its source, and the
outer catch likewise has no remaining throwing step. -/
def applyAsyncBackground (env : BgEnv) (db : DB) (appId : Nat)
    (userId : Option String) (vacancyId : String)
    (vacancyData : Option VacancySnapshot) (_resumeText : Option String)
    (isDemo : Bool) : DB × List ExtCall :=
  let resumeTextFinal := resolveResumeText db userId
  let vacancy := mkVacancy vacancyId vacancyData
  let coverLetter :=
    generateCoverLetter env.genApiKey env.genLlm resumeTextFinal vacancy
  let calls0 := [ExtCall.genCover resumeTextFinal]
  match userId, isDemo with
  | none, _ =>
    (updateApps db appId (fun a =>
       { a with coverLetter := some coverLetter, status := "demo" }), calls0)
  | some _, true =>
    (updateApps db appId (fun a =>
       { a with coverLetter := some coverLetter, status := "demo" }), calls0)
  | some uid, false =>
    match env.token with
    | none =>
      (updateApps db appId (fun a =>
         { a with coverLetter := some coverLetter, status := "failed",
                  errorReason := some "Не авторизован на hh.ru" }), calls0)
    | some accessToken =>
      let selRes := selectedResumeFor db uid
      match selRes with
      | none =>
        (updateApps db appId (fun a =>
           { a with coverLetter := some coverLetter, status := "failed",
                    errorReason := some "Не выбрано резюме" }), calls0)
      | some r =>
        match r.hhResumeId with
        | none =>
          (updateApps db appId (fun a =>
             { a with coverLetter := some coverLetter, status := "failed",
                      errorReason := some "Не выбрано резюме" }), calls0)
        | some hhResumeId =>
          let result := applyToVacancy env.applyResp
          let calls := calls0 ++
            [ExtCall.applyCall accessToken vacancyId hhResumeId coverLetter]
          match result.error with
          | some e =>
            (updateApps db appId (fun a =>
               { a with coverLetter := some coverLetter,
                        resumeId := some r.id, status := "failed",
                        errorReason := some e }), calls)
          | none =>
            (updateApps db appId (fun a =>
               { a with coverLetter := some coverLetter,
                        resumeId := some r.id, status := "success",
                        hhNegotiationId := jsStr? result.id }), calls)

/-! ## routes.ts: POST /api/swipes -/

/-- Reply of the swipe route. -/
inductive SwipeResponse
  | badRequest (code : Nat)
  | alreadySwiped
  | created (swipe : SwipeRow)
deriving DecidableEq, Repr

/-- `POST /api/swipes`: validate the three body fields, answer
`alreadySwiped` without writing when `hasSwipedVacancy` hits, otherwise
insert the swipe and (fire-and-forget) delete the cached compatibility. -/
def swipesHandler (db : DB)
    (userId vacancyId direction : Option String) : DB × SwipeResponse :=
  match jsStr? userId with
  | none => (db, .badRequest 400)
  | some uid =>
    match jsStr? vacancyId with
    | none => (db, .badRequest 400)
    | some vid =>
      match jsStr? direction with
      | none => (db, .badRequest 400)
      | some dir =>
        if !(dir = "left" || dir = "right") then (db, .badRequest 400)
        else if hasSwipedVacancy db uid vid then (db, .alreadySwiped)
        else
          let (db1, swipe) := createSwipe db uid vid dir
          (deleteCompatibility db1 uid vid, .created swipe)

/-! ## routes.ts: GET /api/hh/jobs — swiped filtering -/

/-- A normalized vacancy as produced by `adaptHHVacancy` (string id from the
external API; only the fields the filter step can observe are kept). -/
structure HHJob where
  id : String
  title : String
  company : String
deriving DecidableEq, Repr

/-- The post-fetch filtering step of `GET /api/hh/jobs`: with a `userId`,
fetch the swiped-id set and drop every fetched job whose id is in it;
without one, pass the page through. -/
def filterSwipedJobs (db : DB) (userId : Option String)
    (page : List HHJob) : List HHJob :=
  match userId with
  | none => page
  | some uid =>
    let swipedIds := getSwipedVacancyIds db uid
    page.filter (fun j => !swipedIds.contains j.id)

/-! ## Resume-writing operations (routes.ts, hhAuth.ts DbStorage) -/

/-- An HH resume as consumed by the two sync loops: its external id and the
title/content extracted from the detail fetch. -/
structure HHResumeIn where
  id : String
  title : String
  content : String
deriving DecidableEq, Repr

/-- `db.insert(resumes).values(...)` with the serial id counter. -/
def insertResume (db : DB) (userId : Option String) (hhResumeId : Option String)
    (title : Option String) (content : String) (selected : Bool) : DB :=
  { db with
      resumes := db.resumes ++
        [{ id := db.nextResumeId, userId, hhResumeId, title, content,
           selected }],
      nextResumeId := db.nextResumeId + 1 }

/-- The existing-row lookup shared by both sync loops:
`where(userId = uid AND hhResumeId = hhId)`, destructured to its first row. -/
def findResumeByHHId (db : DB) (uid hhId : String) : Option ResumeRow :=
  (db.resumes.filter
    (fun r => r.userId = some uid && r.hhResumeId = some hhId)).head?

/-- The per-row deselection of `update(resumes).set({selected:false})
.where(userId = uid)`. -/
def deselectRow (uid : String) (r : ResumeRow) : ResumeRow :=
  if r.userId = some uid then { r with selected := false } else r

/-- The per-row selection of `update(resumes).set({selected:true})
.where(id = resumeId AND userId = uid)`. -/
def selectRow (uid : String) (resumeId : Nat) (r : ResumeRow) : ResumeRow :=
  if r.id = resumeId && r.userId = some uid then { r with selected := true }
  else r

/-- `POST /api/hh/resumes/select`: deselect every resume of the user, then
mark the requested one selected; `false` means the 404 branch (note the
deselection has already been persisted there, as in the source). -/
def selectResumeHandler (db : DB) (uid : String) (resumeId : Nat) :
    DB × Bool :=
  if (db.resumes.map (deselectRow uid)).any
      (fun r => r.id = resumeId && r.userId = some uid) then
    ({ db with resumes :=
        (db.resumes.map (deselectRow uid)).map (selectRow uid resumeId) },
     true)
  else
    ({ db with resumes := db.resumes.map (deselectRow uid) }, false)

/-- One iteration of the `POST /api/hh/resumes/sync` loop: update an existing
row's title/content, or insert a new row selected exactly when it is the
first resume processed (`selected: syncedResumes.length === 0`).  The second
component counts processed resumes. -/
def syncStep (uid : String) (acc : DB × Nat) (r : HHResumeIn) : DB × Nat :=
  let (db, count) := acc
  match findResumeByHHId db uid r.id with
  | some existing =>
    ({ db with resumes := db.resumes.map (fun x =>
         if x.id = existing.id then
           { x with title := some r.title, content := r.content }
         else x) }, count + 1)
  | none =>
    (insertResume db (some uid) (some r.id) (some r.title) r.content
       (count = 0), count + 1)

/-- `POST /api/hh/resumes/sync`: fold the HH resume list through `syncStep`. -/
def syncResumesEndpoint (db : DB) (uid : String) (hh : List HHResumeIn) : DB :=
  (hh.foldl (syncStep uid) (db, 0)).1

/-- One iteration of the `/auth/hh/callback` resume-sync loop: update an
existing row's title/content, or insert a new row with `selected: true`
unconditionally. -/
def callbackSyncStep (uid : String) (db : DB) (r : HHResumeIn) : DB :=
  match findResumeByHHId db uid r.id with
  | some existing =>
    { db with resumes := db.resumes.map (fun x =>
        if x.id = existing.id then
          { x with title := some r.title, content := r.content }
        else x) }
  | none =>
    insertResume db (some uid) (some r.id) (some r.title) r.content true

/-- The resume sync performed inside `/auth/hh/callback`. -/
def callbackResumeSync (db : DB) (uid : String) (hh : List HHResumeIn) : DB :=
  hh.foldl (callbackSyncStep uid) db

/-- `DbStorage.getManualResume`: first resume of the user whose
`hh_resume_id` is NULL (the source orders by `updatedAt` descending; the
model takes the head of the matching rows). -/
def getManualResume (db : DB) (uid : String) : Option ResumeRow :=
  (db.resumes.filter
    (fun r => r.userId = some uid && r.hhResumeId = none)).head?

/-- `DbStorage.saveManualResume`: update the existing manual resume's
content, or insert a fresh manual row with `selected: false`. -/
def saveManualResume (db : DB) (uid content : String) : DB :=
  match getManualResume db uid with
  | some existing =>
    { db with resumes := db.resumes.map (fun x =>
        if x.id = existing.id then { x with content } else x) }
  | none => insertResume db (some uid) none none content false

/-- Number of the user's selected external-sourced resumes — the §3 invariant
says this is at most 1. -/
def extSelectedCount (db : DB) (uid : String) : Nat :=
  db.resumes.countP
    (fun r => r.userId = some uid && r.selected && r.hhResumeId ≠ none)

/-! ## Concrete fixtures for witnesses and counterexamples -/

/-- The empty store. -/
def dbEmpty : DB :=
  { resumes := [], swipes := [], applications := [], compat := [],
    nextResumeId := 1, nextSwipeId := 1, nextAppId := 1 }

/-- A store in which user `u` has already swiped vacancy `1`. -/
def dbSwiped : DB :=
  { dbEmpty with
      swipes := [{ id := 1, userId := "u", vacancyId := "1",
                   direction := "right" }],
      nextSwipeId := 2 }

/-- A store in which user `u` has one selected external resume (`hh id a`). -/
def dbOneSelected : DB :=
  { dbEmpty with
      resumes := [{ id := 1, userId := some "u", hhResumeId := some "a",
                    title := some "ta", content := "ca", selected := true }],
      nextResumeId := 2 }

/-- A background environment with no OpenRouter key, no token, and a failing
negotiations response. -/
def envBare : BgEnv :=
  { genApiKey := none, genLlm := .fetchFailed, token := none,
    applyResp := { status := 500, location := none, bodyParsed := false,
                   bodyDescription := none, bodyError := none,
                   bodyErrors := none } }

/-! ## Theorems -/

/-- C8: the persistence-layer score-to-bucket mapping sends every score ≥ 75
to "green", every score in [40, 75) to "yellow", every score < 40 to "red";
in particular 82 ↦ "green", 55 ↦ "yellow", 10 ↦ "red". -/
theorem scoreToColor_thresholds :
    (∀ n : Int, 75 ≤ n → scoreToColor (.num n) = "green") ∧
    (∀ n : Int, 40 ≤ n → n < 75 → scoreToColor (.num n) = "yellow") ∧
    (∀ n : Int, n < 40 → scoreToColor (.num n) = "red") ∧
    scoreToColor (.num 82) = "green" ∧
    scoreToColor (.num 55) = "yellow" ∧
    scoreToColor (.num 10) = "red" := by
  refine ⟨?_, ?_, ?_, by decide, by decide, by decide⟩
  · intro n h
    simp [scoreToColor, JSNum.ge, h]
  · intro n h1 h2
    have h3 : ¬ (75 : Int) ≤ n := by omega
    simp [scoreToColor, JSNum.ge, h1, h3]
  · intro n h
    have h1 : ¬ (75 : Int) ≤ n := by omega
    have h2 : ¬ (40 : Int) ≤ n := by omega
    simp [scoreToColor, JSNum.ge, h1, h2]

/-- Witness for C8 at scores 80, 41 and 3. -/
theorem scoreToColor_thresholds_witness :
    scoreToColor (.num 80) = "green" ∧ scoreToColor (.num 41) = "yellow" ∧
    scoreToColor (.num 3) = "red" :=
  ⟨scoreToColor_thresholds.1 80 (by decide),
   scoreToColor_thresholds.2.1 41 (by decide) (by decide),
   scoreToColor_thresholds.2.2.1 3 (by decide)⟩

/-- C9: a vacancy search performed with a userId returns exactly the fetched
page minus the user's swiped-id set (client-side filter), so the returned
page contains no vacancy the user has already swiped. -/
theorem filterSwipedJobs_excludes (db : DB) (uid : String)
    (page : List HHJob) :
    filterSwipedJobs db (some uid) page =
      page.filter
        (fun j => !(getSwipedVacancyIds db uid).contains j.id) ∧
    ∀ j ∈ filterSwipedJobs db (some uid) page,
      j.id ∉ getSwipedVacancyIds db uid := by
  refine ⟨rfl, ?_⟩
  intro j hj
  have hj' : j ∈ page.filter
      (fun j => !(getSwipedVacancyIds db uid).contains j.id) := hj
  rw [List.mem_filter] at hj'
  simpa using hj'.2

/-- Witness for C9: in a store where user `u` swiped vacancy 1, the job with
id 2 survives the filter and its id is not among the swiped ids. -/
theorem filterSwipedJobs_excludes_witness :
    (({ id := "2", title := "t", company := "c" } : HHJob)).id ∉
      getSwipedVacancyIds dbSwiped "u" :=
  (filterSwipedJobs_excludes dbSwiped "u"
      [{ id := "1", title := "s", company := "c" },
       { id := "2", title := "t", company := "c" }]).2
    { id := "2", title := "t", company := "c" } (by decide)

/-- C7: when a swipe row for `(uid, vid)` already exists, a second swipe
request answers `alreadySwiped` and writes nothing (the store is returned
unchanged). -/
theorem swipe_dedup (db : DB) (uid vid dir : String)
    (huid : uid ≠ "") (hvid : vid ≠ "")
    (hdir : dir = "left" ∨ dir = "right")
    (h : hasSwipedVacancy db uid vid = true) :
    swipesHandler db (some uid) (some vid) (some dir) =
      (db, .alreadySwiped) := by
  rcases hdir with h1 | h1 <;> subst h1 <;>
    simp [swipesHandler, jsStr?, huid, hvid, h]

/-- Witness for C7 in the store where `u` already swiped vacancy 1. -/
theorem swipe_dedup_witness :
    swipesHandler dbSwiped (some "u") (some "1") (some "right") =
      (dbSwiped, .alreadySwiped) :=
  swipe_dedup dbSwiped "u" "1" "right" (by decide) (by decide)
    (Or.inr rfl) (by decide)

/-- C1: the synchronous phase of `/api/apply/async` answers 400 when
`vacancyId` is absent (falsy) and persists nothing; otherwise it persists
exactly one application row with status "pending", null cover letter and the
snapshot title/company (placeholder defaults when absent), and answers with
the new id and status "queued". -/
theorem applyAsync_sync_spec (db : DB) (req : ApplyAsyncRequest) :
    (jsStr? req.vacancyId = none → applyAsyncSync db req = .error 400) ∧
    (∀ vid, jsStr? req.vacancyId = some vid →
      ∃ dbOut resp, applyAsyncSync db req = .ok (dbOut, resp) ∧
        dbOut.applications = db.applications ++
          [{ id := db.nextAppId, userId := jsStr? req.userId,
             vacancyId := some vid, jobId := parseIntOrNull vid,
             jobTitle := jsOrS (req.vacancyData.bind (·.title)) "Вакансия",
             company := jsOrS (req.vacancyData.bind (·.company)) "Компания",
             resumeId := none, coverLetter := none, hhNegotiationId := none,
             status := "pending", errorReason := none }] ∧
        resp.status = "queued" ∧ resp.applicationId = db.nextAppId) := by
  constructor
  · intro h
    simp [applyAsyncSync, h]
  · intro vid h
    cases hu : jsStr? req.userId <;>
      · simp only [applyAsyncSync, h, hu]
        exact ⟨_, _, rfl, rfl, rfl, rfl⟩

/-- Witness for C1 on the empty store and a request carrying only
`vacancyId = "77"`. -/
theorem applyAsync_sync_spec_witness :
    ∃ dbOut resp,
      applyAsyncSync dbEmpty { vacancyId := some "77" } = .ok (dbOut, resp) ∧
      dbOut.applications = dbEmpty.applications ++
        [{ id := 1, userId := none, vacancyId := some "77", jobId := some 77,
           jobTitle := "Вакансия", company := "Компания", resumeId := none,
           coverLetter := none, hhNegotiationId := none, status := "pending",
           errorReason := none }] ∧
      resp.status = "queued" ∧ resp.applicationId = 1 :=
  (applyAsync_sync_spec dbEmpty { vacancyId := some "77" }).2 "77" (by decide)

/-- C3: with `isDemo` or no user, the background phase makes exactly the
demo update — cover letter set to the generated (non-null) text, status
"demo" — and issues no negotiation-submission call. -/
theorem demo_terminal (env : BgEnv) (db : DB) (appId : Nat)
    (userId : Option String) (vid : String) (vd : Option VacancySnapshot)
    (rt : Option String) (isDemo : Bool)
    (h : isDemo = true ∨ userId = none) :
    applyAsyncBackground env db appId userId vid vd rt isDemo =
      (updateApps db appId (fun a =>
        { a with
            coverLetter := some (generateCoverLetter env.genApiKey env.genLlm
              (resolveResumeText db userId) (mkVacancy vid vd)),
            status := "demo" }),
       [ExtCall.genCover (resolveResumeText db userId)]) ∧
    ∀ c ∈ (applyAsyncBackground env db appId userId vid vd rt isDemo).2,
      c.isApply = false := by
  have h1 : applyAsyncBackground env db appId userId vid vd rt isDemo =
      (updateApps db appId (fun a =>
        { a with
            coverLetter := some (generateCoverLetter env.genApiKey env.genLlm
              (resolveResumeText db userId) (mkVacancy vid vd)),
            status := "demo" }),
       [ExtCall.genCover (resolveResumeText db userId)]) := by
    cases userId with
    | none => rfl
    | some uid =>
      rcases h with h | h
      · subst h; rfl
      · exact Option.noConfusion h
  refine ⟨h1, ?_⟩
  rw [h1]
  intro c hc
  simp only [List.mem_singleton] at hc
  subst hc
  rfl

/-- Witness for C3: anonymous demo application on the empty store. -/
theorem demo_terminal_witness :
    applyAsyncBackground envBare dbEmpty 1 none "5" none none false =
      (updateApps dbEmpty 1 (fun a =>
        { a with
            coverLetter := some (generateCoverLetter envBare.genApiKey
              envBare.genLlm (resolveResumeText dbEmpty none)
              (mkVacancy "5" none)),
            status := "demo" }),
       [ExtCall.genCover (resolveResumeText dbEmpty none)]) :=
  (demo_terminal envBare dbEmpty 1 none "5" none none false (Or.inr rfl)).1

/-- C4: when the token manager yields no token for an authenticated non-demo
application, the background phase makes exactly the failure update — cover
letter still set to the generated text, status "failed", error reason the
not-authenticated string — and no submission call is made; and
`getValidAccessToken` does yield `none` when no user row exists, when either
stored token is missing, and when the token is expired and the refresh call
fails. -/
theorem token_unavailable_fails (env : BgEnv) (db : DB) (appId : Nat)
    (uid vid : String) (vd : Option VacancySnapshot) (rt : Option String)
    (now : Int) (refresh : Except Unit TokenResponse)
    (htok : env.token = none) :
    applyAsyncBackground env db appId (some uid) vid vd rt false =
      (updateApps db appId (fun a =>
        { a with
            coverLetter := some (generateCoverLetter env.genApiKey env.genLlm
              (resolveResumeText db (some uid)) (mkVacancy vid vd)),
            status := "failed",
            errorReason := some "Не авторизован на hh.ru" }),
       [ExtCall.genCover (resolveResumeText db (some uid))]) ∧
    (∀ c ∈ (applyAsyncBackground env db appId (some uid) vid vd rt false).2,
      c.isApply = false) ∧
    getValidAccessToken none now refresh = none ∧
    (∀ u : UserRow, jsStr? u.hhAccessToken = none →
      getValidAccessToken (some u) now refresh = none) ∧
    (∀ u : UserRow, jsStr? u.hhRefreshToken = none →
      getValidAccessToken (some u) now refresh = none) ∧
    (∀ (u : UserRow) (exp : Int), u.hhTokenExpiresAt = some exp →
      ¬ now < exp → refresh = .error () →
      getValidAccessToken (some u) now refresh = none) := by
  have h1 : applyAsyncBackground env db appId (some uid) vid vd rt false =
      (updateApps db appId (fun a =>
        { a with
            coverLetter := some (generateCoverLetter env.genApiKey env.genLlm
              (resolveResumeText db (some uid)) (mkVacancy vid vd)),
            status := "failed",
            errorReason := some "Не авторизован на hh.ru" }),
       [ExtCall.genCover (resolveResumeText db (some uid))]) := by
    unfold applyAsyncBackground
    rw [htok]
  refine ⟨h1, ?_, rfl, ?_, ?_, ?_⟩
  · rw [h1]
    intro c hc
    simp only [List.mem_singleton] at hc
    subst hc
    rfl
  · intro u hA
    simp [getValidAccessToken, hA]
  · intro u hR
    cases hA : jsStr? u.hhAccessToken <;>
      simp [getValidAccessToken, hA, hR]
  · intro u expAt hexp hlt hr
    cases hA : jsStr? u.hhAccessToken <;>
      cases hR : jsStr? u.hhRefreshToken <;>
        simp [getValidAccessToken, hA, hR, hexp, hlt, hr]

/-- Witness for C4: authenticated user `u` on the bare environment (no
token), vacancy 5. -/
theorem token_unavailable_fails_witness :
    applyAsyncBackground envBare dbEmpty 1 (some "u") "5" none none false =
      (updateApps dbEmpty 1 (fun a =>
        { a with
            coverLetter := some (generateCoverLetter envBare.genApiKey
              envBare.genLlm (resolveResumeText dbEmpty (some "u"))
              (mkVacancy "5" none)),
            status := "failed",
            errorReason := some "Не авторизован на hh.ru" }),
       [ExtCall.genCover (resolveResumeText dbEmpty (some "u"))]) :=
  (token_unavailable_fails envBare dbEmpty 1 "u" "5" none none 0
    (.error ()) rfl).1

/-- A background environment holding a token and a 201 negotiations response
whose `Location` header ends in id 99. -/
def envApply : BgEnv :=
  { genApiKey := none, genLlm := .fetchFailed, token := some "T",
    applyResp := { status := 201, location := some "/negotiations/99",
                   bodyParsed := true, bodyDescription := none,
                   bodyError := none, bodyErrors := none } }

/-- C5: an authenticated non-demo application that reaches the submission
step gets exactly one terminal update of its row: on an API-reported error
the cover letter, resume reference, status "failed" and the API's message;
on success the cover letter, resume reference, status "success" and the
negotiation id from the response. -/
theorem submission_single_terminal_update (env : BgEnv) (db : DB)
    (appId : Nat) (uid vid : String) (vd : Option VacancySnapshot)
    (rt : Option String) (tok : String) (r : ResumeRow) (rid : String)
    (htok : env.token = some tok)
    (hsel : selectedResumeFor db uid = some r)
    (hrid : r.hhResumeId = some rid) :
    (∀ e, (applyToVacancy env.applyResp).error = some e →
      applyAsyncBackground env db appId (some uid) vid vd rt false =
        (updateApps db appId (fun a =>
          { a with
              coverLetter := some (generateCoverLetter env.genApiKey
                env.genLlm (resolveResumeText db (some uid))
                (mkVacancy vid vd)),
              resumeId := some r.id, status := "failed",
              errorReason := some e }),
         [ExtCall.genCover (resolveResumeText db (some uid)),
          ExtCall.applyCall tok vid rid (generateCoverLetter env.genApiKey
            env.genLlm (resolveResumeText db (some uid))
            (mkVacancy vid vd))])) ∧
    ((applyToVacancy env.applyResp).error = none →
      applyAsyncBackground env db appId (some uid) vid vd rt false =
        (updateApps db appId (fun a =>
          { a with
              coverLetter := some (generateCoverLetter env.genApiKey
                env.genLlm (resolveResumeText db (some uid))
                (mkVacancy vid vd)),
              resumeId := some r.id, status := "success",
              hhNegotiationId := jsStr? (applyToVacancy env.applyResp).id }),
         [ExtCall.genCover (resolveResumeText db (some uid)),
          ExtCall.applyCall tok vid rid (generateCoverLetter env.genApiKey
            env.genLlm (resolveResumeText db (some uid))
            (mkVacancy vid vd))])) := by
  constructor
  · intro e he
    unfold applyAsyncBackground
    simp only [htok, hsel, hrid, he]
    rfl
  · intro he
    unfold applyAsyncBackground
    simp only [htok, hsel, hrid, he]
    rfl

/-- Witness for C5: user `u` with a selected external resume applies to
vacancy 9 against a 201 response carrying negotiation id 99. -/
theorem submission_single_terminal_update_witness :
    applyAsyncBackground envApply dbOneSelected 1 (some "u") "9" none none
        false =
      (updateApps dbOneSelected 1 (fun a =>
        { a with
            coverLetter := some (generateCoverLetter envApply.genApiKey
              envApply.genLlm (resolveResumeText dbOneSelected (some "u"))
              (mkVacancy "9" none)),
            resumeId := some 1, status := "success",
            hhNegotiationId :=
              jsStr? (applyToVacancy envApply.applyResp).id }),
       [ExtCall.genCover (resolveResumeText dbOneSelected (some "u")),
        ExtCall.applyCall "T" "9" "a" (generateCoverLetter envApply.genApiKey
          envApply.genLlm (resolveResumeText dbOneSelected (some "u"))
          (mkVacancy "9" none))]) :=
  (submission_single_terminal_update envApply dbOneSelected 1 "u" "9" none
      none "T"
      { id := 1, userId := some "u", hhResumeId := some "a",
        title := some "ta", content := "ca", selected := true }
      "a" rfl (by decide) rfl).2 (by decide)

/-- C2 counterexample: in the demo path (no user, `isDemo` true) with a
caller-supplied resume text, the cover-letter generation call receives the
empty string, not the caller's text — the caller-supplied `resumeText` does
not apply in the demo path either. -/
theorem caller_resumeText_unused_demo :
    (applyAsyncBackground envBare dbEmpty 1 none "42" none
        (some "МОЙ ОПЫТ") true).2 = [ExtCall.genCover ""] ∧
    ("" : String) ≠ "МОЙ ОПЫТ" :=
  ⟨rfl, by decide⟩

/-- C2 (amended): the background phase never uses the caller-supplied
`resumeText` in any path (the handler's result is the same for any value of
it); the text fed to cover-letter generation is always the resolved one —
the content of the user's selected resume when a user is present and one is
selected, and the empty string otherwise (also in the demo path). -/
theorem background_resume_source (env : BgEnv) (db : DB) (appId : Nat)
    (userId : Option String) (vid : String) (vd : Option VacancySnapshot)
    (rt rtOther : Option String) (isDemo : Bool) :
    applyAsyncBackground env db appId userId vid vd rt isDemo =
      applyAsyncBackground env db appId userId vid vd rtOther isDemo ∧
    ((applyAsyncBackground env db appId userId vid vd rt isDemo).2).head? =
      some (.genCover (resolveResumeText db userId)) ∧
    (∀ uid r, userId = some uid → selectedResumeFor db uid = some r →
      resolveResumeText db userId = r.content) ∧
    (∀ uid, userId = some uid → selectedResumeFor db uid = none →
      resolveResumeText db userId = "") ∧
    (userId = none → resolveResumeText db userId = "") := by
  refine ⟨rfl, ?_, ?_, ?_, ?_⟩
  · unfold applyAsyncBackground
    cases userId with
    | none => rfl
    | some uid =>
      cases isDemo with
      | true => rfl
      | false =>
        cases htok : env.token with
        | none => simp only [htok]; rfl
        | some tok =>
          simp only [htok]
          cases hs : selectedResumeFor db uid with
          | none => simp only [hs]; rfl
          | some r =>
            simp only [hs]
            cases hr : r.hhResumeId with
            | none => simp only [hr]; rfl
            | some rid =>
              simp only [hr]
              cases he : (applyToVacancy env.applyResp).error with
              | none => simp only [he]; rfl
              | some e => simp only [he]; rfl
  · intro uid r h hr
    subst h
    simp [resolveResumeText, hr]
  · intro uid h hr
    subst h
    simp [resolveResumeText, hr]
  · intro h
    subst h
    rfl

/-- Witness for C2 (amended): user `u` with selected resume content `ca`. -/
theorem background_resume_source_witness :
    resolveResumeText dbOneSelected (some "u") = "ca" :=
  (background_resume_source envBare dbOneSelected 1 (some "u") "9" none none
      none false).2.2.1 "u"
    { id := 1, userId := some "u", hhResumeId := some "a",
      title := some "ta", content := "ca", selected := true }
    rfl (by decide)

/-- A resume text longer than the 50-character guard. -/
def longResume : String :=
  "aaaaaaaaaaaaaaaaaaaaaaaaaaaaaaaaaaaaaaaaaaaaaaaaaaaaaaaa"

/-- C10 counterexample: a response that parses as JSON but carries no
numeric `score` makes `Math.round` produce NaN, the clamp keeps NaN, and the
returned score is NaN with color "red" — not an integer in [0, 100]. -/
theorem compat_nan_escape :
    scoreInRange (calculateCompatibility (some "k") longResume "123"
      (.json .nan "ok")).score = false ∧
    (calculateCompatibility (some "k") longResume "123"
      (.json .nan "ok")).score = .nan := by
  constructor <;> decide

/-- C10 (amended): `calculateCompatibility` is total, its color always
equals `scoreToColor` of its score, every fallback/error branch returns
50/"yellow", a numeric JSON score and a regex-extracted score are clamped to
an integer in [0, 100]; but a JSON body whose score is missing or
non-numeric yields score NaN (color "red"), which is not an integer in
range. -/
theorem calculateCompatibility_amended (apiKey : Option String)
    (resume vacancyId : String) (outcome : CompatOutcome) :
    (calculateCompatibility apiKey resume vacancyId outcome).color =
      scoreToColor
        (calculateCompatibility apiKey resume vacancyId outcome).score ∧
    ((jsStr? apiKey = none ∨ resume = "" ∨ (jsTrim resume).length < 50 ∨
        outcome = .fetchFailed ∨ outcome = .httpError ∨
        outcome = .noScore) →
      (calculateCompatibility apiKey resume vacancyId outcome).score =
          .num 50 ∧
        (calculateCompatibility apiKey resume vacancyId outcome).color =
          "yellow") ∧
    (∀ n e, outcome = .json (.num n) e →
      scoreInRange
        (calculateCompatibility apiKey resume vacancyId outcome).score =
        true) ∧
    (∀ d e, outcome = .regexScore d e →
      scoreInRange
        (calculateCompatibility apiKey resume vacancyId outcome).score =
        true) ∧
    (∀ e, outcome = .json .nan e → jsStr? apiKey ≠ none → resume ≠ "" →
      ¬ (jsTrim resume).length < 50 →
      (calculateCompatibility apiKey resume vacancyId outcome).score =
          .nan ∧
        (calculateCompatibility apiKey resume vacancyId outcome).color =
          "red") := by
  refine ⟨?_, ?_, ?_, ?_, ?_⟩
  · unfold calculateCompatibility
    split
    · rfl
    · cases outcome with
      | fetchFailed => rfl
      | httpError => rfl
      | noScore => rfl
      | json s e => rfl
      | regexScore d e => rfl
  · intro h
    unfold calculateCompatibility
    split
    · exact ⟨rfl, rfl⟩
    · rename_i hguard
      rcases h with h | h | h | h | h | h
      · simp [h] at hguard
      · simp [h] at hguard
      · simp [h] at hguard
      · subst h; exact ⟨rfl, rfl⟩
      · subst h; exact ⟨rfl, rfl⟩
      · subst h; exact ⟨rfl, rfl⟩
  · intro n e h
    subst h
    unfold calculateCompatibility
    split
    · rfl
    · simp only [jsClamp0To100, scoreInRange]
      simp only [decide_eq_true_eq, Bool.and_eq_true]
      exact ⟨by omega, by omega⟩
  · intro d e h
    subst h
    unfold calculateCompatibility
    split
    · rfl
    · simp only [jsClamp0To100, scoreInRange]
      simp only [decide_eq_true_eq, Bool.and_eq_true]
      exact ⟨by omega, by omega⟩
  · intro e h hk hempty hlen
    subst h
    unfold calculateCompatibility
    split
    · rename_i hguard
      simp [hk, hempty, hlen] at hguard
    · exact ⟨rfl, rfl⟩

/-- Witness for C10 (amended): a JSON score of 82 on a long resume yields an
in-range integer score. -/
theorem calculateCompatibility_amended_witness :
    scoreInRange (calculateCompatibility (some "k") longResume "1"
      (.json (.num 82) "ok")).score = true :=
  (calculateCompatibility_amended (some "k") longResume "1"
    (.json (.num 82) "ok")).2.2.1 82 "ok" rfl

/-! ## Helper lemmas for the selected-resume invariant (C6) -/

/-- Mapping a row transformation that does not change the predicate leaves
`countP` unchanged. -/
theorem countP_map_eq (l : List ResumeRow) (f : ResumeRow → ResumeRow)
    (p : ResumeRow → Bool) (h : ∀ r ∈ l, p (f r) = p r) :
    (l.map f).countP p = l.countP p := by
  induction l with
  | nil => rfl
  | cons a t ih =>
    simp only [List.map_cons, List.countP_cons]
    rw [ih (fun r hr => h r (List.mem_cons_of_mem a hr)),
      h a (List.mem_cons_self a t)]

/-- When the list's keys are distinct and the predicate forces one key,
at most one row satisfies it. -/
theorem countP_le_one_of_key (rid : Nat) (l : List ResumeRow)
    (hnd : (l.map (fun r => r.id)).Nodup) (p : ResumeRow → Bool)
    (hp : ∀ r ∈ l, p r = true → r.id = rid) : l.countP p ≤ 1 := by
  induction l with
  | nil => simp
  | cons a t ih =>
    rw [List.map_cons, List.nodup_cons] at hnd
    rw [List.countP_cons]
    by_cases hpa : p a = true
    · have hz : t.countP p = 0 := by
        rw [List.countP_eq_zero]
        intro r hr hpr
        exact hnd.1 (by
          rw [hp a (List.mem_cons_self a t) hpa,
            ← hp r (List.mem_cons_of_mem a hr) hpr]
          exact List.mem_map_of_mem _ hr)
      rw [hz, if_pos hpa]
    · rw [if_neg hpa, Nat.add_zero]
      exact ih hnd.2 (fun r hr => hp r (List.mem_cons_of_mem a hr))

/-- No row of the deselect-everything map satisfies the selected predicate
for the deselected user. -/
theorem countP_deselected_zero (l : List ResumeRow) (uid : String) :
    ((l.map (deselectRow uid)).countP (fun r =>
        r.userId = some uid && r.selected && r.hhResumeId ≠ none)) = 0 := by
  rw [List.countP_eq_zero]
  intro x hx
  rw [List.mem_map] at hx
  obtain ⟨r, _, rfl⟩ := hx
  by_cases h : r.userId = some uid <;> simp [deselectRow, h]

/-- `deselectRow` and `selectRow` keep every row's id. -/
theorem selectRow_deselectRow_id (uid : String) (rid : Nat) (r : ResumeRow) :
    (selectRow uid rid (deselectRow uid r)).id = r.id := by
  unfold selectRow deselectRow
  by_cases h1 : r.userId = some uid <;> by_cases h2 : r.id = rid <;>
    simp [h1, h2]

/-- C6 counterexample: the OAuth-callback resume sync marks every newly
created resume selected, so syncing two fresh resumes for a user who starts
with no resumes leaves two selected external resumes — the invariant is not
preserved by that operation. -/
theorem callbackSync_breaks_selected_invariant :
    extSelectedCount dbEmpty "u" ≤ 1 ∧
    2 ≤ extSelectedCount (callbackResumeSync dbEmpty "u"
      [{ id := "r1", title := "t1", content := "c1" },
       { id := "r2", title := "t2", content := "c2" }]) "u" := by
  constructor <;> decide

/-- C6 (amended): manual save preserves the selected-external-resume count
for every user, and resume selection leaves at most one selected external
resume for the selecting user (given distinct row ids) while not touching
other users' counts; but the two sync operations do not preserve the
invariant: the sync endpoint marks the first newly created resume selected
even when another external resume is already selected, and the
OAuth-callback sync marks every newly created resume selected. -/
theorem selected_invariant_amended :
    (∀ (db : DB) (uid content u : String),
      extSelectedCount (saveManualResume db uid content) u =
        extSelectedCount db u) ∧
    (∀ (db : DB) (uid : String) (rid : Nat) (u : String), u ≠ uid →
      extSelectedCount (selectResumeHandler db uid rid).1 u =
        extSelectedCount db u) ∧
    (∀ (db : DB) (uid : String) (rid : Nat),
      (db.resumes.map (fun r => r.id)).Nodup →
      extSelectedCount (selectResumeHandler db uid rid).1 uid ≤ 1) ∧
    (extSelectedCount dbOneSelected "u" ≤ 1 ∧
      2 ≤ extSelectedCount (syncResumesEndpoint dbOneSelected "u"
        [{ id := "b", title := "tb", content := "cb" }]) "u") ∧
    (extSelectedCount dbEmpty "u" ≤ 1 ∧
      2 ≤ extSelectedCount (callbackResumeSync dbEmpty "u"
        [{ id := "x", title := "tx", content := "cx" },
         { id := "y", title := "ty", content := "cy" }]) "u") := by
  refine ⟨?_, ?_, ?_, by constructor <;> decide, by constructor <;> decide⟩
  · intro db uid content u
    unfold saveManualResume extSelectedCount
    cases h : getManualResume db uid with
    | some existing =>
      simp only [h]
      exact countP_map_eq _ _ _ (fun r _ => by
        by_cases hid : r.id = existing.id <;> simp [hid])
    | none =>
      simp only [h, insertResume, List.countP_append]
      simp
  · intro db uid rid u hne
    have hsome : (some uid : Option String) ≠ some u := by
      intro hc
      exact hne (Option.some.injEq uid u ▸ hc).symm
    have hf1 : ∀ r ∈ db.resumes,
        (fun r => r.userId = some u && r.selected && r.hhResumeId ≠ none)
          (deselectRow uid r) =
        (fun r => r.userId = some u && r.selected && r.hhResumeId ≠ none)
          r := by
      intro r _
      by_cases h : r.userId = some uid
      · simp [deselectRow, h, hsome]
      · simp [deselectRow, h]
    have hf2 : ∀ r ∈ db.resumes.map (deselectRow uid),
        (fun r => r.userId = some u && r.selected && r.hhResumeId ≠ none)
          (selectRow uid rid r) =
        (fun r => r.userId = some u && r.selected && r.hhResumeId ≠ none)
          r := by
      intro r _
      by_cases h : (r.id = rid && (r.userId = some uid : Bool)) = true
      · have hu : r.userId = some uid := by
          simp only [Bool.and_eq_true, decide_eq_true_eq] at h
          exact h.2
        have h2 : r.id = rid := by
          simp only [Bool.and_eq_true, decide_eq_true_eq] at h
          exact h.1
        simp [selectRow, h, hu, h2, hsome]
      · simp [selectRow, h]
    unfold extSelectedCount selectResumeHandler
    split
    · simp only []
      rw [countP_map_eq _ _ _ hf2, countP_map_eq _ _ _ hf1]
    · simp only []
      rw [countP_map_eq _ _ _ hf1]
  · intro db uid rid hnd
    unfold extSelectedCount selectResumeHandler
    split
    · simp only []
      apply countP_le_one_of_key rid
      · rw [List.map_map, List.map_map]
        have heq : db.resumes.map
            (((fun r => r.id) ∘ selectRow uid rid) ∘ deselectRow uid) =
            db.resumes.map (fun r => r.id) :=
          List.map_congr_left
            (fun r _ => selectRow_deselectRow_id uid rid r)
        rw [heq]
        exact hnd
      · intro x hx hpx
        rw [List.mem_map] at hx
        obtain ⟨y, hy, rfl⟩ := hx
        rw [List.mem_map] at hy
        obtain ⟨r, _, rfl⟩ := hy
        by_cases h1 : r.userId = some uid
        · by_cases h2 : r.id = rid
          · simp [selectRow, deselectRow, h1, h2]
          · simp [selectRow, deselectRow, h1, h2] at hpx
        · simp [selectRow, deselectRow, h1] at hpx
    · simp only []
      rw [countP_deselected_zero]
      omega

/-- Witness for C6 (amended): selecting resume 1 for user `u` in the
one-selected-resume store leaves at most one selected external resume. -/
theorem selected_invariant_amended_witness :
    extSelectedCount (selectResumeHandler dbOneSelected "u" 1).1 "u" ≤ 1 :=
  selected_invariant_amended.2.2.1 dbOneSelected "u" 1 (by decide)

end JobSwiper
